import Mathlib

/-!
Verification of the hyperspectral extractor pipeline
(src/hyperspectral/terra_hyperspectral.py) and of its structural validator
(src/hyperspectral/hyperspectral_test.py), via a shallow embedding of both
Python modules.  Paths are modelled as dirname/basename pairs, Python
exceptions as an error type threaded through Except, numpy float data as
rationals, and the mutable pipeline effects (symlinks created, temporary
directory, upload and trait-submission flags) as an explicit record.
-/

/-- Python truthiness of a variable holding None, True or False:
None and False are falsy, True is truthy. -/
def pyTruthy : Option Bool → Bool
  | none => false
  | some b => b

/-- Python falsiness test of a variable holding None or a string
(the test written as _if not last_path:_ in the source): None and the
empty string are falsy. -/
def strFalsy : Option String → Bool
  | none => true
  | some s => s.isEmpty

/-- Python str.endswith, computed on the underlying character lists. -/
def pyEndsWith (s suffix : String) : Bool :=
  List.isSuffixOf suffix.toList s.toList

/-- A filesystem path split the way os.path.dirname and os.path.basename
split an absolute path: the directory part and the slash-free base name. -/
structure FPath where
  dir : String
  base : String
  deriving DecidableEq

/-- The full path string: dirname and basename joined by a slash. -/
def FPath.str (p : FPath) : String := p.dir ++ "/" ++ p.base

/-- One entry of the target_files dictionary of process_message:
{'filename': os.path.basename(f), 'path': f}. -/
structure FileRec where
  filename : String
  path : FPath
  deriving DecidableEq

/-- The target_files dictionary of process_message (source lines 80-87):
six roles, each optionally resolved to a record. -/
structure TargetFiles where
  raw : Option FileRec
  rawHdr : Option FileRec
  imageJpg : Option FileRec
  frameIndexTxt : Option FileRec
  settingsTxt : Option FileRec
  metadataJson : Option FileRec
  deriving DecidableEq

def emptyTargetFiles : TargetFiles := ⟨none, none, none, none, none, none⟩

/-- The keys of the target_files dictionary, in the textual order of the
source.  The six suffix patterns are pairwise not suffixes of one another,
so a path matches at most one of them and the dictionary iteration order
is immaterial to the loop's result. -/
def targetFileKeys : List String :=
  ["raw", "raw.hdr", "image.jpg", "frameIndex.txt", "settings.txt", "_metadata.json"]

/-- Dictionary read target_files[fileExt]. -/
def lookupTarget (t : TargetFiles) (ext : String) : Option FileRec :=
  if ext = "raw" then t.raw
  else if ext = "raw.hdr" then t.rawHdr
  else if ext = "image.jpg" then t.imageJpg
  else if ext = "frameIndex.txt" then t.frameIndexTxt
  else if ext = "settings.txt" then t.settingsTxt
  else if ext = "_metadata.json" then t.metadataJson
  else none

/-- Dictionary write target_files[fileExt] = rec. -/
def setTarget (t : TargetFiles) (ext : String) (r : FileRec) : TargetFiles :=
  if ext = "raw" then { t with raw := some r }
  else if ext = "raw.hdr" then { t with rawHdr := some r }
  else if ext = "image.jpg" then { t with imageJpg := some r }
  else if ext = "frameIndex.txt" then { t with frameIndexTxt := some r }
  else if ext = "settings.txt" then { t with settingsTxt := some r }
  else if ext = "_metadata.json" then { t with metadataJson := some r }
  else t

/-- The local variables of the file-classification loop of process_message
(source lines 89-113): the partially filled target_files dictionary, the
metafile and ds_metafile path variables, and the directory co-location
tracking pair last_path / path_match.  path_match is initialised to None
and the loop only ever assigns False to it. -/
structure ScanState where
  targets : TargetFiles
  metafile : Option FPath
  ds_metafile : Option FPath
  last_path : Option String
  path_match : Option Bool
  deriving DecidableEq

def initScanState : ScanState := ⟨emptyTargetFiles, none, none, none, none⟩

/-- Source lines 99-106: the branch for a non-metadata role.  The
containing directory is compared with the previously seen one; on a
mismatch path_match is set to False, and last_path is updated in every
case, before the role's record is stored.  (The source performs the
path_match assignment and the last_path update as two statements; they
commute, so they are written as one record update here.) -/
def updateNonMeta (st : ScanState) (f : FPath) (ext : String) : ScanState :=
  let filedir := f.dir
  let st1 :=
    match st.last_path with
    | none => { st with last_path := some filedir }
    | some lp =>
      if lp = "" then { st with last_path := some filedir }
      else if filedir ≠ lp then
        { st with path_match := some false, last_path := some filedir }
      else { st with last_path := some filedir }
  { st1 with targets := setTarget st1.targets ext ⟨f.base, f⟩ }

/-- The body of the nested classification loop (source lines 96-113), for
one candidate path f and one dictionary key fileExt. -/
def processExt (st : ScanState) (f : FPath) (ext : String) : ScanState :=
  if pyEndsWith f.str ext then
    if ext ≠ "_metadata.json" then
      updateNonMeta st f ext
    else
      if pyEndsWith f.str "/_dataset_metadata.json" then
        { st with ds_metafile := some f }
      else if ¬ pyEndsWith f.str "/_metadata.json" then
        { st with metafile := some f,
                  targets := setTarget st.targets "_metadata.json" ⟨f.base, f⟩ }
      else st
  else st

/-- The classification loop of process_message over resource['local_paths']
(source lines 95-113). -/
def scanLocalPaths (paths : List FPath) : ScanState :=
  paths.foldl
    (fun st f => targetFileKeys.foldl (fun s ext => processExt s f ext) st)
    initScanState

/-- A fully co-located capture: all five non-metadata roles live in the
same directory /data. -/
def colocatedPaths : List FPath :=
  [⟨"/data", "a_raw"⟩, ⟨"/data", "a_raw.hdr"⟩, ⟨"/data", "a_image.jpg"⟩,
   ⟨"/data", "a_frameIndex.txt"⟩, ⟨"/data", "a_settings.txt"⟩]

/-- A scattered capture: the header lives in a different directory than
the raw cube. -/
def scatteredPaths : List FPath :=
  [⟨"/data", "a_raw"⟩, ⟨"/elsewhere", "a_raw.hdr"⟩]

/-- One file entry of resource['files'] in a Clowder listing, as read by
get_all_files (source lines 226-228). -/
structure ClowderFile where
  id : String
  filename : String
  deriving DecidableEq

/-- The part of the resource dictionary read by get_all_files: the
optional 'files' listing (source line 225 tests 'files' in resource). -/
structure ClowderResource where
  files : Option (List ClowderFile)

/-- The target_files dictionary of get_all_files (source lines 217-223):
the five non-metadata roles. -/
structure ExpectedFiles where
  raw : Option ClowderFile
  rawHdr : Option ClowderFile
  imageJpg : Option ClowderFile
  frameIndexTxt : Option ClowderFile
  settingsTxt : Option ClowderFile

def emptyExpectedFiles : ExpectedFiles := ⟨none, none, none, none, none⟩

/-- The inner loop of get_all_files (source lines 229-234) for one file
item: each of the five suffix conditions is tested and the matching role
overwritten.  The conditions are independent, so the five updates are
written as one record expression. -/
def classifyInto (t : ExpectedFiles) (f : ClowderFile) : ExpectedFiles :=
  { raw := if pyEndsWith f.filename "raw" then some f else t.raw,
    rawHdr := if pyEndsWith f.filename "raw.hdr" then some f else t.rawHdr,
    imageJpg := if pyEndsWith f.filename "image.jpg" then some f else t.imageJpg,
    frameIndexTxt := if pyEndsWith f.filename "frameIndex.txt" then some f else t.frameIndexTxt,
    settingsTxt := if pyEndsWith f.filename "settings.txt" then some f else t.settingsTxt }

/-- get_all_files (source lines 216-236): find as many expected files as
possible and return the set; resources without a 'files' listing yield
the empty set. -/
def get_all_files (r : ClowderResource) : ExpectedFiles :=
  match r.files with
  | some fs => fs.foldl classifyInto emptyExpectedFiles
  | none => emptyExpectedFiles

/-- has_all_files (source lines 239-247): true iff every role of
get_all_files is resolved. -/
def has_all_files (r : ClowderResource) : Bool :=
  let t := get_all_files r
  t.raw.isSome && t.rawHdr.isSome && t.imageJpg.isSome &&
    t.frameIndexTxt.isSome && t.settingsTxt.isSome

/-- Whether the listing of a resource contains a file whose name carries
the given role suffix. -/
def roleListed (r : ClowderResource) (ext : String) : Bool :=
  (r.files.getD []).any (fun f => pyEndsWith f.filename ext)

/-- The allowed band counts of the wavelength checks (source lines 104
and 132): the tuple (272, 273, 275, 939, 955). -/
def wavelengthAllowed : List Nat := [272, 273, 275, 939, 955]

/-- testTheWavelengthDimensionsHaveCorrectValues (source lines 103-104):
assertIn(len(self.dimensions["wavelength"]), (272, 273, 275, 939, 955)). -/
def testTheWavelengthDimensionsHaveCorrectValues (wavelengthDimLen : Nat) : Bool :=
  wavelengthAllowed.contains wavelengthDimLen

/-- testWavelengthArrayHasEnoughData (source lines 127-132):
assertIn(len(self.wavelengthArray), (272, 273, 275, 939, 955)). -/
def testWavelengthArrayHasEnoughData (wavelengthLen : Nat) : Bool :=
  wavelengthAllowed.contains wavelengthLen

/-- testWavelengthArrayHasCorrectData (source lines 134-138): the first
wavelength sample must be strictly greater than 3e-7 and strictly less
than 1e-6.  The float samples are modelled as rationals, the two float
literals as the exact rationals they denote. -/
def testWavelengthArrayHasCorrectData (wavelength0 : ℚ) : Bool :=
  decide (3 / 10000000 < wavelength0) && decide (wavelength0 < 1 / 1000000)

/-- testSolarZenithAngleInReseaonableRange (source lines 257-262): the
over-90 flag and the below-0 flag are combined with _and_ before the
assertFalse, so the check fails only when both flags hold.  The check
returns true iff the assertion passes. -/
def testSolarZenithAngleInReseaonableRange (solar_zenith_angle : List ℚ) : Bool :=
  let result_over := solar_zenith_angle.any (fun v => decide (90 < v))
  let result_lower := solar_zenith_angle.any (fun v => decide (v < 0))
  !(result_over && result_lower)

/-- The outcome of one unittest check of the validator suite: whether the
method is decorated with @unittest.expectedFailure, and whether its body
runs without raising. -/
structure CheckOutcome where
  expectedFailure : Bool
  passes : Bool

/-- Modelled from the spec: the result accounting of Python 2 unittest
(the runner invoked at source line 289 is stdlib code, not part of this
repository).  A test that raises and is not decorated expected-failure is
recorded as a failure or error; a decorated test that raises is recorded
as an expected failure and a decorated test that passes as an unexpected
success, neither of which enters the failure and error lists. -/
def failuresAndErrors (suite : List CheckOutcome) : List CheckOutcome :=
  suite.filter (fun t => !t.expectedFailure && !t.passes)

/-- Modelled from the spec: TestResult.wasSuccessful of Python 2 unittest
(source line 290) — true iff the failure and error lists are both empty. -/
def wasSuccessful (suite : List CheckOutcome) : Bool :=
  (failuresAndErrors suite).isEmpty

/-- sys.exit applied to a boolean (source line 291): False exits with
status 0, True with status 1. -/
def sysExitCode (b : Bool) : Nat := if b then 1 else 0

/-- The __main__ block of hyperspectral_test.py (source lines 272-291):
run the suite and exit with sys.exit(not runner.wasSuccessful()). -/
def mainExitCode (suite : List CheckOutcome) : Nat :=
  sysExitCode (!wasSuccessful suite)

/-- DEFAULT_SATURATED_EXPOSURE (source line 54). -/
def DEFAULT_SATURATED_EXPOSURE : Int := 2 ^ 16 - 1

/-- The numeric module-level globals of hyperspectral_test.py after the
__main__ block has rebound them from the command line (source lines 50-54
and 285-287), as the name-resolution map the test bodies evaluate under.
Only numeric names can appear in the arithmetic comparisons of the
checks; every other identifier resolves to none, which Python reports as
a NameError.  In particular the name SATURATED_EXPOSURE is bound nowhere
in the module. -/
def testGlobals (maximum_plant_reflectance : ℚ) (saturated_exposure : Int) :
    String → Option ℚ := fun name =>
  if name = "EXPECTED_NUMBER_OF_GROUPS" then some 6
  else if name = "EXPECTED_NUMBER_OF_DIMENSIONS" then some 4
  else if name = "MAXIMUM_PLANT_REFLECTANCE" then some maximum_plant_reflectance
  else if name = "DEFAULT_SATURATED_EXPOSURE" then some (saturated_exposure : ℚ)
  else none

/-- Python exception kinds raised by the embedded code. -/
inductive PyError where
  | valueError
  | typeError
  | attributeError
  | nameError
  | indexError
  | ioError
  | fileExistsError
  | fileNotFoundError
  deriving DecidableEq

/-- testCalibrationGraphIsOverExposured (source lines 264-269): the body
compares the xps_img data against the global name SATURATED_EXPOSURE,
resolved in the module's global map; an unbound name raises NameError.
The check returns ok true iff the assertFalse passes. -/
def testCalibrationGraphIsOverExposured (globals : String → Option ℚ)
    (xps_img : List ℚ) : Except PyError Bool :=
  match globals "SATURATED_EXPOSURE" with
  | none => .error .nameError
  | some ceiling => .ok (!(xps_img.any (fun v => decide (ceiling < v))))

/-- Python str.replace on character lists, replacing non-overlapping
occurrences left to right, with a fuel argument equal to the input length
(the pipeline only calls it with the nonempty pattern _raw). -/
def replaceAux (pat repl : List Char) : Nat → List Char → List Char
  | 0, s => s
  | _ + 1, [] => []
  | fuel + 1, c :: rest =>
    if pat.isPrefixOf (c :: rest) && !pat.isEmpty then
      repl ++ replaceAux pat repl fuel ((c :: rest).drop pat.length)
    else c :: replaceAux pat repl fuel rest

/-- Python str.replace(old, new) (source line 139). -/
def pyReplace (s pat repl : String) : String :=
  ⟨replaceAux pat.toList repl.toList s.toList.length s.toList⟩

/-- Python str.split(sep) on character lists for a nonempty separator,
with a fuel argument equal to the input length. -/
def splitOnAux (sep : List Char) : Nat → List Char → List (List Char)
  | 0, _ => [[]]
  | _ + 1, [] => [[]]
  | fuel + 1, c :: rest =>
    if sep.isPrefixOf (c :: rest) && !sep.isEmpty then
      [] :: splitOnAux sep fuel ((c :: rest).drop sep.length)
    else
      match splitOnAux sep fuel rest with
      | [] => [[c]]
      | g :: gs => (c :: g) :: gs

/-- Python str.split(sep) (source line 147). -/
def pySplit (s sep : String) : List String :=
  (splitOnAux sep.toList s.toList.length s.toList).map (fun l => ⟨l⟩)

/-- The externally observable effects of one process_message run.  The
symlinks field is the Python symlinks list (every recorded link path);
links_live is the set of link paths currently existing on disk, kept as a
list.  The code appends to both together (a link is recorded only after
os.symlink succeeded) and removes links only in the final cleanup loop. -/
structure RunState where
  symlinks : List String
  links_live : List String
  tempdir : Option String
  tempdir_live : Bool
  ds_meta_rewritten : Bool
  uploaded : Bool
  created : Nat
  bytes : Nat
  logged_no_output : Bool
  traits_submitted : Bool
  deriving DecidableEq

def initRun : RunState := ⟨[], [], none, false, false, false, 0, 0, false, false⟩

/-- The parts of the Clowder resource dictionary read by process_message:
the dataset id, the dataset name (resource['dataset_info']['name']) and
the downloaded local file paths. -/
structure Resource where
  id : String
  datasetName : String
  local_paths : List FPath

/-- The external-world outcomes process_message observes: the exit status
of hyperspectral_workflow.sh, the sensor output path, whether and how
large the output file is, and whether the companion _ind index container
opens and holds the NDVI705-tagged variable. -/
structure ConvEnv where
  returncode : Int
  outFilePath : String
  outputExists : Bool
  outputSize : Nat
  indOpenOk : Bool
  indHasNDVI : Bool

/-- The fresh directory returned by tempfile.mkdtemp (source line 129);
the generated unique name is abstracted to a fixed fresh path. -/
def mkdtempPath : String := "/tmp/tmpSTAGING"

/-- os.symlink(currf['path'], newf) followed by symlinks.append(newf)
(source lines 142-143): creating a link at an already existing path
raises FileExistsError, otherwise the link exists and is recorded. -/
def symlinkTo (run : RunState) (newf : String) : Except (PyError × RunState) RunState :=
  if run.links_live.contains newf then .error (.fileExistsError, run)
  else
    .ok { run with links_live := run.links_live ++ [newf],
                   symlinks := run.symlinks ++ [newf] }

/-- The body of the staging loop (source lines 130-143) for one key f of
target_files.  An unresolved role makes currf None and the subscript
currf['filename'] raises TypeError.  For a record named
_dataset_metadata.json the container-level metadata file is rewritten in
place through get_terraref_metadata (lines 133-138, recorded in the
ds_meta_rewritten flag) and the link is named from the raw file's base
name with the _raw infix stripped; dereferencing target_files['raw'] for
that name raises TypeError when the raw role is unresolved. -/
def linkOne (tf : TargetFiles) (td : String)
    (st : Except (PyError × RunState) RunState) (ext : String) :
    Except (PyError × RunState) RunState :=
  match st with
  | .error e => .error e
  | .ok run =>
    match lookupTarget tf ext with
    | none => .error (.typeError, run)
    | some currf =>
      if currf.filename = "_dataset_metadata.json" then
        match lookupTarget tf "raw" with
        | none => .error (.typeError, { run with ds_meta_rewritten := true })
        | some rawRec =>
          symlinkTo { run with ds_meta_rewritten := true }
            (td ++ "/" ++ pyReplace rawRec.filename "_raw" "" ++ "_metadata.json")
      else
        symlinkTo run (td ++ "/" ++ currf.filename)

/-- The staging loop over the keys of target_files (source lines 130-143). -/
def symlinkLoop (tf : TargetFiles) (td : String) (run : RunState) :
    Except (PyError × RunState) RunState :=
  targetFileKeys.foldl (linkOne tf td) (.ok run)

/-- Source lines 127-143: the staging branch is gated on
_if not path_match_, so it runs whenever path_match is falsy (None or
False); it creates the temporary directory and then links every role
into it. -/
def stagingStage (scan : ScanState) (run : RunState) :
    Except (PyError × RunState) RunState :=
  if pyTruthy scan.path_match then .ok run
  else
    symlinkLoop scan.targets mkdtempPath
      { run with tempdir := some mkdtempPath, tempdir_live := true }

/-- Source lines 115-125: metadata identification.  With a capture-level
metafile the block is skipped.  With only a dataset-level metadata file
the code enters the recovery branch and calls os.path.listdir(ds_dir)
(source line 121); the os.path module has no attribute listdir, so the
call raises AttributeError unconditionally (and even absent that, the
branch would subscript target_files['_metadata.json'], which is None
here).  With neither file, ValueError('could not locate metadata...') is
raised. -/
def metadataStage (scan : ScanState) : Except PyError Unit :=
  match scan.metafile with
  | some _ => .ok ()
  | none =>
    match scan.ds_metafile with
    | some _ => .error .attributeError
    | none => .error .valueError

/-- Source lines 168-185: output verification and upload.  Only
os.path.exists(outFilePath) is consulted (the file size is read for the
byte counter, never checked); when the output exists and the status was
zero, the file is uploaded unless it already appears among the local
paths and the created/bytes counters advance; when the output is
missing, log_error('no output file was produced') only records the
message — the run continues.  The two counter increments are merged into
the same record update as the upload flag. -/
def verifyUpload (res : Resource) (env : ConvEnv) (run : RunState) : RunState :=
  if env.outputExists then
    if env.returncode = 0 then
      if !(res.local_paths.map FPath.str).contains env.outFilePath then
        { run with uploaded := true, created := run.created + 1,
                   bytes := run.bytes + env.outputSize }
      else
        { run with created := run.created + 1, bytes := run.bytes + env.outputSize }
    else run
  else { run with logged_no_output := true }

/-- Source lines 187-205: the trait side-channel.  Dataset(ind_file)
raises IOError when the index container is missing; ndvi[0] raises
IndexError when no NDVI705-tagged variable exists; otherwise traits.csv
is written and submit_traits is called. -/
def traitStage (env : ConvEnv) (run : RunState) :
    Except (PyError × RunState) RunState :=
  if env.indOpenOk then
    if env.indHasNDVI then .ok { run with traits_submitted := true }
    else .error (.indexError, run)
  else .error (.ioError, run)

/-- The cleanup loop _for sym in symlinks: os.remove(sym)_ (source lines
208-209): each recorded link is removed from the set of existing links;
removing a path that does not exist raises FileNotFoundError. -/
def removeAll (recorded live : List String) : Except PyError (List String) :=
  match recorded with
  | [] => .ok live
  | s :: rest =>
    if live.contains s then removeAll rest (live.erase s)
    else .error .fileNotFoundError

/-- Source lines 207-211: remove every recorded symlink, then remove the
staging directory if one was created. -/
def cleanupStage (run : RunState) : Except (PyError × RunState) RunState :=
  match removeAll run.symlinks run.links_live with
  | .error e => .error (e, run)
  | .ok live =>
    if run.tempdir.isSome then
      .ok { run with links_live := live, tempdir_live := false }
    else
      .ok { run with links_live := live }

/-- process_message (source lines 76-213), as the sequence: classify the
local paths, identify the metadata file, build the staging area (gated on
_if not path_match_), split the dataset name for the timestamp (source
line 147; a name without the separator raises IndexError), raise
ValueError on a non-zero conversion status (line 171), verify and upload
the output, run the trait side-channel, and only then — on the one
successful path — remove the symlinks and the staging directory.  An
error is returned together with the run effects at the moment it was
raised. -/
def process_message (res : Resource) (env : ConvEnv) :
    Except (PyError × RunState) RunState :=
  let scan := scanLocalPaths res.local_paths
  match metadataStage scan with
  | .error e => .error (e, initRun)
  | .ok _ =>
    match stagingStage scan initRun with
    | .error e => .error e
    | .ok run1 =>
      match (pySplit res.datasetName " - ")[1]? with
      | none => .error (.indexError, run1)
      | some _timestamp =>
        if env.returncode ≠ 0 then .error (.valueError, run1)
        else
          match traitStage env (verifyUpload res env run1) with
          | .error e => .error e
          | .ok run2 => cleanupStage run2

/-- The run effects at the end of process_message, whether it returned or
raised. -/
def finalRunState : Except (PyError × RunState) RunState → RunState
  | .ok w => w
  | .error (_, w) => w

/-- The exception process_message raised, if any. -/
def raisedError : Except (PyError × RunState) RunState → Option PyError
  | .ok _ => none
  | .error (e, _) => some e

/-- Whether a staged computation raised. -/
def isErrRun : Except (PyError × RunState) RunState → Bool
  | .error _ => true
  | .ok _ => false

/-- A complete capture: the five data files in /data, the capture-level
metadata file in /data2. -/
def resComplete : Resource :=
  ⟨"ds1", "VNIR - 2017-05-05__01-02-03-000",
   [⟨"/data", "a_raw"⟩, ⟨"/data", "a_raw.hdr"⟩, ⟨"/data", "a_image.jpg"⟩,
    ⟨"/data", "a_frameIndex.txt"⟩, ⟨"/data", "a_settings.txt"⟩,
    ⟨"/data2", "b_metadata.json"⟩]⟩

/-- A capture carrying only a container-level (dataset) metadata
document, no capture-level one. -/
def resDatasetMetaOnly : Resource :=
  ⟨"ds2", "VNIR - 2017-05-05__01-02-03-000",
   [⟨"/data", "a_raw"⟩, ⟨"/data", "a_raw.hdr"⟩, ⟨"/data", "a_image.jpg"⟩,
    ⟨"/data", "a_frameIndex.txt"⟩, ⟨"/data", "a_settings.txt"⟩,
    ⟨"/data", "_dataset_metadata.json"⟩]⟩

/-- The conversion script exits with status 1. -/
def envConvFails : ConvEnv := ⟨1, "/out/a.nc", false, 0, true, true⟩

/-- The conversion script exits with status 0 but no output file appears. -/
def envNoOutput : ConvEnv := ⟨0, "/out/a.nc", false, 0, true, true⟩

/-- The conversion succeeds and the output file exists but is empty. -/
def envZeroSize : ConvEnv := ⟨0, "/out/a.nc", true, 0, true, true⟩

/-- A fully successful run: output of 5 bytes, index container present. -/
def envAllGood : ConvEnv := ⟨0, "/out/a.nc", true, 5, true, true⟩

/-- The staging file set with the raw role unresolved and the other five
roles resolved. -/
def tfMissingRaw : TargetFiles :=
  ⟨none, some ⟨"a_raw.hdr", ⟨"/data", "a_raw.hdr"⟩⟩,
   some ⟨"a_image.jpg", ⟨"/data", "a_image.jpg"⟩⟩,
   some ⟨"a_frameIndex.txt", ⟨"/data", "a_frameIndex.txt"⟩⟩,
   some ⟨"a_settings.txt", ⟨"/data", "a_settings.txt"⟩⟩,
   some ⟨"b_metadata.json", ⟨"/data2", "b_metadata.json"⟩⟩⟩

/-- The run state after the successful run of resComplete under
envAllGood. -/
def wAllGood : RunState :=
  { symlinks := ["/tmp/tmpSTAGING/a_raw", "/tmp/tmpSTAGING/a_raw.hdr",
      "/tmp/tmpSTAGING/a_image.jpg", "/tmp/tmpSTAGING/a_frameIndex.txt",
      "/tmp/tmpSTAGING/a_settings.txt", "/tmp/tmpSTAGING/b_metadata.json"],
    links_live := [], tempdir := some "/tmp/tmpSTAGING", tempdir_live := false,
    ds_meta_rewritten := false, uploaded := true, created := 1, bytes := 5,
    logged_no_output := false, traits_submitted := true }

theorem updateNonMeta_pm (st : ScanState) (f : FPath) (ext : String) :
    (updateNonMeta st f ext).path_match = st.path_match ∨
    (updateNonMeta st f ext).path_match = some false := by
  unfold updateNonMeta
  cases h : st.last_path with
  | none => exact Or.inl rfl
  | some lp =>
    by_cases h1 : lp = ""
    · simp [h1]
    · by_cases h2 : f.dir ≠ lp
      · simp [h1, h2]
      · simp [h1, h2]

theorem processExt_pm (st : ScanState) (f : FPath) (ext : String) :
    (processExt st f ext).path_match = st.path_match ∨
    (processExt st f ext).path_match = some false := by
  unfold processExt
  split
  · split
    · exact updateNonMeta_pm st f ext
    · split
      · exact Or.inl rfl
      · split
        · exact Or.inl rfl
        · exact Or.inl rfl
  · exact Or.inl rfl

theorem foldKeys_pm (f : FPath) :
    ∀ (keys : List String) (st : ScanState), st.path_match ≠ some true →
      (keys.foldl (fun s ext => processExt s f ext) st).path_match ≠ some true := by
  intro keys
  induction keys with
  | nil => intro st h; exact h
  | cons k ks ih =>
    intro st h
    simp only [List.foldl_cons]
    refine ih _ ?_
    rcases processExt_pm st f k with h1 | h1
    · rw [h1]; exact h
    · rw [h1]; simp

theorem scanLocalPaths_pm (paths : List FPath) :
    (scanLocalPaths paths).path_match ≠ some true := by
  unfold scanLocalPaths
  have main : ∀ (ps : List FPath) (st : ScanState), st.path_match ≠ some true →
      (ps.foldl
        (fun st f => targetFileKeys.foldl (fun s ext => processExt s f ext) st)
        st).path_match ≠ some true := by
    intro ps
    induction ps with
    | nil => intro st h; exact h
    | cons p ps ih =>
      intro st h
      simp only [List.foldl_cons]
      exact ih _ (foldKeys_pm p targetFileKeys st h)
  exact main paths initScanState (by simp [initScanState])

/-- C1.  The claim fails on the code: path_match is initialised to None
and is never assigned True, so on a fully co-located capture it stays
None (not True), and the staging gate _if not path_match_ (source line
128) fires even then, building the staging area.  Only the second half
of the claim holds: a role in a different directory does set path_match
to False. -/
theorem c1_pathsMatch_never_true :
    (scanLocalPaths colocatedPaths).path_match = none ∧
    pyTruthy (scanLocalPaths colocatedPaths).path_match = false ∧
    (∀ paths : List FPath, (scanLocalPaths paths).path_match ≠ some true) ∧
    (scanLocalPaths scatteredPaths).path_match = some false := by
  refine ⟨by decide, by decide, scanLocalPaths_pm, by decide⟩

theorem foldClassify_role (ext : String) (proj : ExpectedFiles → Option ClowderFile)
    (hstep : ∀ t f, proj (classifyInto t f) =
      if pyEndsWith f.filename ext then some f else proj t)
    (fs : List ClowderFile) :
    ∀ t : ExpectedFiles,
      (proj (fs.foldl classifyInto t)).isSome
        = ((proj t).isSome || fs.any (fun f => pyEndsWith f.filename ext)) := by
  induction fs with
  | nil => intro t; simp
  | cons f fs ih =>
    intro t
    simp only [List.foldl_cons, List.any_cons, ih, hstep]
    cases h : pyEndsWith f.filename ext <;> simp [h, Bool.or_assoc]

/-- C7.  has_all_files answers true exactly when the resource's file
listing holds, for each of the five non-metadata roles, some file whose
name ends with the role's suffix; a missing role, or a missing 'files'
listing altogether, yields false.  The embedded function is total, the
negative outcome is a plain boolean, never an exception. -/
theorem c7_has_all_files_iff (r : ClowderResource) :
    has_all_files r = true ↔
      (roleListed r "raw" = true ∧ roleListed r "raw.hdr" = true ∧
       roleListed r "image.jpg" = true ∧ roleListed r "frameIndex.txt" = true ∧
       roleListed r "settings.txt" = true) := by
  cases hf : r.files with
  | none =>
    simp [has_all_files, get_all_files, hf, roleListed, emptyExpectedFiles]
  | some fs =>
    have h1 := foldClassify_role "raw" (fun t => t.raw)
      (fun t f => rfl) fs emptyExpectedFiles
    have h2 := foldClassify_role "raw.hdr" (fun t => t.rawHdr)
      (fun t f => rfl) fs emptyExpectedFiles
    have h3 := foldClassify_role "image.jpg" (fun t => t.imageJpg)
      (fun t f => rfl) fs emptyExpectedFiles
    have h4 := foldClassify_role "frameIndex.txt" (fun t => t.frameIndexTxt)
      (fun t f => rfl) fs emptyExpectedFiles
    have h5 := foldClassify_role "settings.txt" (fun t => t.settingsTxt)
      (fun t f => rfl) fs emptyExpectedFiles
    simp only [emptyExpectedFiles, Option.isSome_none, Bool.false_or] at h1 h2 h3 h4 h5
    simp [has_all_files, get_all_files, hf, roleListed, emptyExpectedFiles,
      h1, h2, h3, h4, h5]
    tauto

/-- C8.  The wavelength-cardinality checks pass exactly on the five
historically valid band counts (in particular 300 fails), the variable
length check is the same predicate, and the range check passes exactly
when the first sample lies strictly between 3e-7 and 1e-6 meters. -/
theorem c8_wavelength_checks :
    (∀ n : Nat, testTheWavelengthDimensionsHaveCorrectValues n = true ↔
      (n = 272 ∨ n = 273 ∨ n = 275 ∨ n = 939 ∨ n = 955)) ∧
    testTheWavelengthDimensionsHaveCorrectValues 300 = false ∧
    (∀ n : Nat,
      testWavelengthArrayHasEnoughData n = testTheWavelengthDimensionsHaveCorrectValues n) ∧
    (∀ q : ℚ, testWavelengthArrayHasCorrectData q = true ↔
      (3 / 10000000 < q ∧ q < 1 / 1000000)) := by
  refine ⟨?_, by decide, fun n => rfl, ?_⟩
  · intro n
    simp [testTheWavelengthDimensionsHaveCorrectValues, wavelengthAllowed]
  · intro q
    simp [testWavelengthArrayHasCorrectData]

/-- C4.  The claim fails on the code: the solar-zenith-angle check
combines the over-90 flag and the below-0 flag with a logical AND, so a
container violating only one bound (a value over 90, or a value below 0)
still passes, and the check fails exactly when both kinds of violation
occur somewhere in the array. -/
theorem c4_zenith_check_is_conjunction :
    testSolarZenithAngleInReseaonableRange [100] = true ∧
    (90 : ℚ) < 100 ∧
    testSolarZenithAngleInReseaonableRange [-5] = true ∧
    (-5 : ℚ) < 0 ∧
    testSolarZenithAngleInReseaonableRange [100, -5] = false ∧
    (∀ g : List ℚ, testSolarZenithAngleInReseaonableRange g = false ↔
      ((∃ v ∈ g, 90 < v) ∧ (∃ w ∈ g, w < 0))) := by
  refine ⟨by decide, by decide, by decide, by decide, by decide, ?_⟩
  intro g
  simp [testSolarZenithAngleInReseaonableRange]

/-- C6.  The validator process exits with status 0 iff every check not
marked expected-failure passes. -/
theorem c6_exit_status_iff (suite : List CheckOutcome) :
    mainExitCode suite = 0 ↔
      ∀ t ∈ suite, t.expectedFailure = false → t.passes = true := by
  have h0 : mainExitCode suite = 0 ↔ wasSuccessful suite = true := by
    unfold mainExitCode sysExitCode
    cases h : wasSuccessful suite <;> simp [h]
  rw [h0]
  unfold wasSuccessful failuresAndErrors
  rw [List.isEmpty_iff, List.filter_eq_nil_iff]
  constructor
  · intro h t ht hef
    have := h t ht
    simp only [Bool.and_eq_true, Bool.not_eq_true', not_and] at this
    exact Bool.not_eq_false _ |>.mp (by simpa using this hef)
  · intro h t ht
    simp only [Bool.and_eq_true, Bool.not_eq_true', not_and]
    intro hef
    simp [h t ht hef]

/-- C9.  The claim fails on the code: the exposure check's body resolves
the global name SATURATED_EXPOSURE, which is bound nowhere in the module
(the module binds DEFAULT_SATURATED_EXPOSURE, default 2^16-1, and the
command line rebinds that same name), so the check raises NameError on
every input and never compares the data against the configured ceiling. -/
theorem c9_exposure_check_raises_nameerror :
    ∀ (maximum_plant_reflectance : ℚ) (saturated_exposure : Int) (xps_img : List ℚ),
      testCalibrationGraphIsOverExposured
          (testGlobals maximum_plant_reflectance saturated_exposure) xps_img
        = Except.error PyError.nameError ∧
      testGlobals maximum_plant_reflectance saturated_exposure
          "DEFAULT_SATURATED_EXPOSURE" = some (saturated_exposure : ℚ) ∧
      DEFAULT_SATURATED_EXPOSURE = 65535 := by
  intro mr se xs
  exact ⟨rfl, rfl, rfl⟩

theorem lookupTarget_raw (tf : TargetFiles) : lookupTarget tf "raw" = tf.raw := rfl

theorem lookupTarget_rawHdr (tf : TargetFiles) :
    lookupTarget tf "raw.hdr" = tf.rawHdr := rfl

theorem lookupTarget_imageJpg (tf : TargetFiles) :
    lookupTarget tf "image.jpg" = tf.imageJpg := rfl

theorem lookupTarget_frameIndexTxt (tf : TargetFiles) :
    lookupTarget tf "frameIndex.txt" = tf.frameIndexTxt := rfl

theorem lookupTarget_settingsTxt (tf : TargetFiles) :
    lookupTarget tf "settings.txt" = tf.settingsTxt := rfl

theorem lookupTarget_metadataJson (tf : TargetFiles) :
    lookupTarget tf "_metadata.json" = tf.metadataJson := rfl

theorem linkFold_error (tf : TargetFiles) (td : String) :
    ∀ (keys : List String) (e : PyError × RunState),
      keys.foldl (linkOne tf td) (.error e) = .error e := by
  intro keys
  induction keys with
  | nil => intro e; rfl
  | cons k ks ih =>
    intro e
    simp only [List.foldl_cons]
    exact ih e

theorem linkFold_missing (tf : TargetFiles) (td : String) :
    ∀ (keys : List String) (st : Except (PyError × RunState) RunState),
      (∃ k ∈ keys, lookupTarget tf k = none) →
      isErrRun (keys.foldl (linkOne tf td) st) = true := by
  intro keys
  induction keys with
  | nil =>
    intro st h
    simp at h
  | cons k ks ih =>
    intro st h
    simp only [List.foldl_cons]
    rcases st with e | run
    · rw [show linkOne tf td (.error e) k = .error e from rfl,
        linkFold_error tf td ks e]
      rfl
    · rcases hk : lookupTarget tf k with _ | currf
      · rw [show linkOne tf td (.ok run) k = .error (.typeError, run) by
          simp [linkOne, hk], linkFold_error tf td ks _]
        rfl
      · rcases h with ⟨k', hk', hnone⟩
        rcases List.mem_cons.mp hk' with rfl | hk'
        · rw [hk] at hnone; cases hnone
        · exact ih _ ⟨k', hk', hnone⟩

/-- C10.  The staging-link loop presumes a fully resolved target_files
set: whenever any of the six roles is unresolved, the loop raises (the
unresolved role's record is None and the subscript for its filename
raises TypeError) instead of skipping the missing role. -/
theorem c10_staging_requires_complete_set (tf : TargetFiles) (td : String)
    (run : RunState)
    (h : tf.raw = none ∨ tf.rawHdr = none ∨ tf.imageJpg = none ∨
         tf.frameIndexTxt = none ∨ tf.settingsTxt = none ∨ tf.metadataJson = none) :
    isErrRun (symlinkLoop tf td run) = true := by
  apply linkFold_missing
  rcases h with h | h | h | h | h | h
  · exact ⟨"raw", by simp [targetFileKeys], (lookupTarget_raw tf).trans h⟩
  · exact ⟨"raw.hdr", by simp [targetFileKeys], (lookupTarget_rawHdr tf).trans h⟩
  · exact ⟨"image.jpg", by simp [targetFileKeys], (lookupTarget_imageJpg tf).trans h⟩
  · exact ⟨"frameIndex.txt", by simp [targetFileKeys],
      (lookupTarget_frameIndexTxt tf).trans h⟩
  · exact ⟨"settings.txt", by simp [targetFileKeys],
      (lookupTarget_settingsTxt tf).trans h⟩
  · exact ⟨"_metadata.json", by simp [targetFileKeys],
      (lookupTarget_metadataJson tf).trans h⟩

theorem c10_staging_requires_complete_set_witness :
    (tfMissingRaw.raw = none ∨ tfMissingRaw.rawHdr = none ∨
     tfMissingRaw.imageJpg = none ∨ tfMissingRaw.frameIndexTxt = none ∨
     tfMissingRaw.settingsTxt = none ∨ tfMissingRaw.metadataJson = none) ∧
    isErrRun (symlinkLoop tfMissingRaw "/tmp/t" initRun) = true :=
  ⟨Or.inl rfl,
   c10_staging_requires_complete_set tfMissingRaw "/tmp/t" initRun (Or.inl rfl)⟩

/-- C5.  The claim fails on the code: given only a container-level
metadata document, process_message crashes with AttributeError while
entering the recovery branch (source line 121 calls os.path.listdir,
which does not exist), before any transform of the container-level
document or any overwrite of it can happen, for every conversion
environment. -/
theorem c5_dataset_metadata_branch_raises (env : ConvEnv) :
    process_message resDatasetMetaOnly env
      = Except.error (PyError.attributeError, initRun) := rfl

theorem removeAll_self : ∀ l : List String, removeAll l l = .ok [] := by
  intro l
  induction l with
  | nil => rfl
  | cons s rest ih =>
    have hc : (s :: rest).contains s = true := by simp
    simp only [removeAll, hc, if_true, List.erase_cons_head]
    exact ih

theorem symlinkTo_preserve (run run' : RunState) (newf : String)
    (h : symlinkTo run newf = .ok run')
    (hsync : run.links_live = run.symlinks) :
    run'.links_live = run'.symlinks ∧ run'.tempdir = run.tempdir ∧
      run'.tempdir_live = run.tempdir_live := by
  unfold symlinkTo at h
  split at h
  · cases h
  · cases h
    exact ⟨by simp [hsync], rfl, rfl⟩

theorem linkOne_preserve (tf : TargetFiles) (td : String) (k : String)
    (run run' : RunState) (h : linkOne tf td (.ok run) k = .ok run')
    (hsync : run.links_live = run.symlinks) :
    run'.links_live = run'.symlinks ∧ run'.tempdir = run.tempdir ∧
      run'.tempdir_live = run.tempdir_live := by
  unfold linkOne at h
  rcases hk : lookupTarget tf k with _ | currf
  · simp only [hk] at h
    cases h
  · simp only [hk] at h
    split at h
    · rcases hr : lookupTarget tf "raw" with _ | rawRec
      · simp only [hr] at h
        cases h
      · simp only [hr] at h
        exact symlinkTo_preserve { run with ds_meta_rewritten := true } run' _ h hsync
    · exact symlinkTo_preserve run run' _ h hsync

theorem linkFold_preserve (tf : TargetFiles) (td : String) :
    ∀ (keys : List String) (run run' : RunState),
      keys.foldl (linkOne tf td) (.ok run) = .ok run' →
      run.links_live = run.symlinks →
      (run'.links_live = run'.symlinks ∧ run'.tempdir = run.tempdir ∧
       run'.tempdir_live = run.tempdir_live) := by
  intro keys
  induction keys with
  | nil =>
    intro run run' h hsync
    simp only [List.foldl_nil] at h
    cases h
    exact ⟨hsync, rfl, rfl⟩
  | cons k ks ih =>
    intro run run' h hsync
    simp only [List.foldl_cons] at h
    rcases hstep : linkOne tf td (.ok run) k with e | run1
    · rw [hstep, linkFold_error tf td ks e] at h
      cases h
    · rw [hstep] at h
      obtain ⟨h1, h2, h3⟩ := linkOne_preserve tf td k run run1 hstep hsync
      obtain ⟨g1, g2, g3⟩ := ih run1 run' h h1
      exact ⟨g1, g2.trans h2, g3.trans h3⟩

theorem stagingStage_ok (scan : ScanState) (run run' : RunState)
    (h : stagingStage scan run = .ok run')
    (hsync : run.links_live = run.symlinks)
    (htd : run.tempdir = none → run.tempdir_live = false) :
    run'.links_live = run'.symlinks ∧
      (run'.tempdir = none → run'.tempdir_live = false) := by
  unfold stagingStage at h
  split at h
  · cases h
    exact ⟨hsync, htd⟩
  · unfold symlinkLoop at h
    obtain ⟨h1, h2, h3⟩ :=
      linkFold_preserve scan.targets mkdtempPath targetFileKeys _ run' h hsync
    refine ⟨h1, fun hnone => ?_⟩
    rw [h2] at hnone
    cases hnone

theorem verifyUpload_preserve (res : Resource) (env : ConvEnv) (run : RunState) :
    (verifyUpload res env run).links_live = run.links_live ∧
    (verifyUpload res env run).symlinks = run.symlinks ∧
    (verifyUpload res env run).tempdir = run.tempdir ∧
    (verifyUpload res env run).tempdir_live = run.tempdir_live := by
  unfold verifyUpload
  split
  · split
    · split
      · exact ⟨rfl, rfl, rfl, rfl⟩
      · exact ⟨rfl, rfl, rfl, rfl⟩
    · exact ⟨rfl, rfl, rfl, rfl⟩
  · exact ⟨rfl, rfl, rfl, rfl⟩

theorem traitStage_ok (env : ConvEnv) (run run' : RunState)
    (h : traitStage env run = .ok run') :
    run'.links_live = run.links_live ∧ run'.symlinks = run.symlinks ∧
      run'.tempdir = run.tempdir ∧ run'.tempdir_live = run.tempdir_live := by
  unfold traitStage at h
  split at h
  · split at h
    · cases h
      exact ⟨rfl, rfl, rfl, rfl⟩
    · cases h
  · cases h

theorem cleanupStage_ok (run w : RunState) (h : cleanupStage run = .ok w)
    (hsync : run.links_live = run.symlinks)
    (htd : run.tempdir = none → run.tempdir_live = false) :
    w.links_live = [] ∧ w.tempdir_live = false := by
  unfold cleanupStage at h
  rw [hsync, removeAll_self] at h
  simp only [] at h
  rcases htmp : run.tempdir with _ | td
  · rw [htmp] at h
    simp only [Option.isSome_none, Bool.false_eq_true, if_false] at h
    cases h
    exact ⟨rfl, htd htmp⟩
  · rw [htmp] at h
    simp only [Option.isSome_some, if_true] at h
    cases h
    exact ⟨rfl, rfl⟩

/-- C2 (amended).  Cleanup of the staging area happens only on the one
successful exit path: whenever process_message returns normally, every
recorded symlink has been removed and the staging directory no longer
exists. -/
theorem c2_cleanup_only_on_success (res : Resource) (env : ConvEnv) (w : RunState)
    (h : process_message res env = .ok w) :
    w.links_live = [] ∧ w.tempdir_live = false := by
  simp only [process_message] at h
  rcases hmeta : metadataStage (scanLocalPaths res.local_paths) with e | u
  · simp only [hmeta] at h
    cases h
  · simp only [hmeta] at h
    rcases hstage : stagingStage (scanLocalPaths res.local_paths) initRun with e | run1
    · simp only [hstage] at h
      cases h
    · simp only [hstage] at h
      rcases hts : (pySplit res.datasetName " - ")[1]? with _ | ts
      · simp only [hts] at h
        cases h
      · simp only [hts] at h
        by_cases hrc : env.returncode ≠ 0
        · rw [if_pos hrc] at h
          cases h
        · rw [if_neg hrc] at h
          rcases htr : traitStage env (verifyUpload res env run1) with e | run2
          · simp only [htr] at h
            cases h
          · simp only [htr] at h
            obtain ⟨i1, i2⟩ := stagingStage_ok _ _ _ hstage rfl (fun _ => rfl)
            obtain ⟨v1, v2, v3, v4⟩ := verifyUpload_preserve res env run1
            obtain ⟨t1, t2, t3, t4⟩ := traitStage_ok env _ run2 htr
            refine cleanupStage_ok run2 w h ?_ ?_
            · rw [t1, t2, v1, v2]
              exact i1
            · intro hnone
              rw [t4, v4]
              exact i2 (by rw [← v3, ← t3]; exact hnone)

theorem c2_cleanup_only_on_success_witness :
    process_message resComplete envAllGood = Except.ok wAllGood ∧
    (wAllGood.links_live = [] ∧ wAllGood.tempdir_live = false) :=
  ⟨rfl, c2_cleanup_only_on_success resComplete envAllGood wAllGood rfl⟩

/-- C2 counterexample.  A conversion failure (exit status 1) raised after
the staging area was built aborts process_message with ValueError while
all six recorded symlinks and the staging directory still exist — the
cleanup at source lines 207-211 is not protected by any finally block. -/
theorem c2_counterexample_failure_leaks_staging :
    raisedError (process_message resComplete envConvFails) = some PyError.valueError ∧
    (finalRunState (process_message resComplete envConvFails)).links_live =
      ["/tmp/tmpSTAGING/a_raw", "/tmp/tmpSTAGING/a_raw.hdr",
       "/tmp/tmpSTAGING/a_image.jpg", "/tmp/tmpSTAGING/a_frameIndex.txt",
       "/tmp/tmpSTAGING/a_settings.txt", "/tmp/tmpSTAGING/b_metadata.json"] ∧
    (finalRunState (process_message resComplete envConvFails)).tempdir_live = true :=
  ⟨rfl, rfl, rfl⟩

/-- C3 (amended).  When the conversion reports success but the output
path is missing, the verification step only records the logged error and
skips the upload — it raises nothing and the run continues into the trait
side-channel (shown by the completed run on resComplete under
envNoOutput). -/
theorem c3_missing_output_only_logged :
    (∀ (res : Resource) (env : ConvEnv) (run : RunState),
      env.outputExists = false →
      verifyUpload res env run = { run with logged_no_output := true }) ∧
    (finalRunState (process_message resComplete envNoOutput)).traits_submitted = true := by
  refine ⟨?_, rfl⟩
  intro res env run h
  unfold verifyUpload
  simp [h]

theorem c3_missing_output_only_logged_witness :
    envNoOutput.outputExists = false ∧
    verifyUpload resComplete envNoOutput initRun =
      { initRun with logged_no_output := true } :=
  ⟨rfl, c3_missing_output_only_logged.1 resComplete envNoOutput initRun rfl⟩

/-- C3 counterexample.  With a successful conversion status and a missing
output file, process_message completes without raising: the missing
output is only logged, no upload happens, and the trait-extraction step
still runs and submits traits; moreover an existing but empty (zero-byte)
output file is verified and uploaded — no size check exists. -/
theorem c3_counterexample_missing_output_swallowed :
    raisedError (process_message resComplete envNoOutput) = none ∧
    (finalRunState (process_message resComplete envNoOutput)).logged_no_output = true ∧
    (finalRunState (process_message resComplete envNoOutput)).traits_submitted = true ∧
    (finalRunState (process_message resComplete envNoOutput)).uploaded = false ∧
    raisedError (process_message resComplete envZeroSize) = none ∧
    (finalRunState (process_message resComplete envZeroSize)).uploaded = true :=
  ⟨rfl, rfl, rfl, rfl, rfl, rfl⟩
